import Mathlib

/-!
Shallow embedding of the ushell-rtic-example firmware (src/main.rs and
src/shell.rs): an interrupt-driven LED-blinky shell.  The system state is
the shared/local RTIC resources plus the observable peripheral state
(timer rate, LED level, timer pending-interrupt flag).  Serial output is
modelled as a list of observable transport writes.
-/

/-- Observable writes to the serial transport: a text chunk
(`shell.write_str` / `write!`), or the clear-screen action (`shell.clear()`,
whose concrete escape bytes live in the external ushell crate). -/
inductive Out where
  | text (s : String)
  | clearScreen
deriving Repr, DecidableEq

/-- The firmware state: RTIC shared resource `blink_enabled`, local
resources `blink_freq` (a `u8`, held as a `Nat`) and the LED level, plus
the peripheral timer's configured rate in Hz (last `timer.start(r.hz())`)
and its pending-interrupt flag. -/
structure SysState where
  blink_enabled : Bool
  blink_freq : Nat
  timer_rate : Nat
  led : Bool
  timer_irq_pending : Bool
deriving Repr, DecidableEq

/-- `const SHELL_PROMPT: &str = "#> ";` (main.rs). -/
def SHELL_PROMPT : String := "#> "

/-- `const CR: &str = "\r\n";` (main.rs). -/
def CR : String := "\r\n"

/-- The `HELP` string of main.rs.  Note: line 32 of main.rs ends without a
`\` continuation, so the Rust literal contains a real newline between
`Print this message\r\n\r\n` and `CONTROL KEYS:`. -/
def HELP : String :=
  "\r\n\x1b[31mL\x1b[32mE\x1b[34mD \x1b[33mBlinky Shell \x1b[0mv.1\r\n\r\nUSAGE:\r\n\tcommand [arg]\r\n\r\nCOMMANDS:\r\n\ton        Start animation\r\n\toff       Stop animation\r\n\tstatus    Get animation status\r\n\tset <Hz>  Set animation frequency in Hertz [1-100]\r\n\tclear     Clear screen\r\n\thelp      Print this message\r\n\r\n\nCONTROL KEYS:\r\n\tCtrl+D    Start animation\r\n\tCtrl+C    Stop animation\r\n\tCtrl+S    Increment animation frequency\r\n\tCtrl+X    Decrement animation frequency\r\n"

/-- The `HELP` string of shell.rs (same newline quirk at its line 18; it has
no Ctrl+S / Ctrl+X lines). -/
def shellHELP : String :=
  "\r\n\x1b[31mL\x1b[32mE\x1b[34mD \x1b[33mBlinky Shell \x1b[0mv.1\r\n\r\nUSAGE:\r\n\tcommand [arg]\r\n\r\nCOMMANDS:\r\n\ton        Start animation\r\n\toff       Stop animation\r\n\tstatus    Get animation status\r\n\tset <Hz>  Set animation frequency in Hertz [1-100]\r\n\tclear     Clear screen\r\n\thelp      Print this message\r\n\r\n\nCONTROL KEYS:\r\n\tCtrl+D    Start animation\r\n\tCtrl+C    Stop animation\r\n"

/-- ushell `control::CTRL_C` (0x03). -/
def CTRL_C : Nat := 3
/-- ushell `control::CTRL_D` (0x04). -/
def CTRL_D : Nat := 4
/-- ushell `control::CTRL_K` (0x0B). -/
def CTRL_K : Nat := 11
/-- ushell `control::CTRL_S` (0x13). -/
def CTRL_S : Nat := 19
/-- ushell `control::CTRL_X` (0x18). -/
def CTRL_X : Nat := 24

/-- Accumulator loop of the checked decimal parse: each step is
`acc * 10 + digit` with the `u8` overflow check (fails above 255), as the
btoi crate's `FromRadix10Checked` for `u8` does. -/
def btoiDigits : Nat → List Char → Option Nat
  | acc, [] => some acc
  | acc, c :: cs =>
    if c.isDigit then
      let v := acc * 10 + (c.toNat - 48)
      if v ≤ 255 then btoiDigits v cs else none
    else none

/-- At least one digit is required; an empty input is a parse error. -/
def btoiBody : List Char → Option Nat
  | [] => none
  | cs => btoiDigits 0 cs

/-- `btoi::btoi::<u8>`: the external btoi crate's checked signed decimal
parse, at type `u8`.  An optional leading `+` or `-` sign, then one or more
decimal digits, accumulated with checked `u8` arithmetic; with a `-` sign
the checked subtraction from 0 succeeds only at value 0. -/
def btoi : List Char → Option Nat
  | [] => none
  | '+' :: rest => btoiBody rest
  | '-' :: rest =>
    match btoiBody rest with
    | some 0 => some 0
    | _ => none
  | cs => btoiBody cs

/-- The state produced by `init` (main.rs): `blink_timer.start(4.hz())`,
`blink_enabled: false`, `blink_freq: 2`, LED configured as a push-pull
output (low), no pending timer interrupt. -/
def initState : SysState :=
  { blink_enabled := false
    blink_freq := 2
    timer_rate := 4
    led := false
    timer_irq_pending := false }

/-- The `blink_timer_tick` handler (main.rs, `binds = TIM16`): if
`blink_enabled` the LED is toggled, else it is set low; then the timer's
pending interrupt is cleared (`t.clear_irq()`). -/
def blink_timer_tick (s : SysState) : SysState :=
  let s1 := if s.blink_enabled then { s with led := !s.led } else { s with led := false }
  { s1 with timer_irq_pending := false }

/-- The command dispatch of main.rs's `serial_data` handler
(the inner `match cmd` plus the trailing `shell.write_str(SHELL_PROMPT)`),
returning the new state and the transport writes.  A Rust `match` on `&str`
literals is an equality chain.  `blink_freq` is printed in decimal by
`write!`. -/
def mainCommand (s : SysState) (cmd args : String) : SysState × List Out :=
  if cmd = "help" then (s, [.text HELP, .text SHELL_PROMPT])
  else if cmd = "clear" then (s, [.clearScreen, .text SHELL_PROMPT])
  else if cmd = "on" then
    ({ s with blink_enabled := true }, [.text CR, .text SHELL_PROMPT])
  else if cmd = "off" then
    ({ s with blink_enabled := false }, [.text CR, .text SHELL_PROMPT])
  else if cmd = "status" then
    (s, [.text (CR ++ "Animation: " ++ (if s.blink_enabled then "On" else "Off")
          ++ CR ++ "Frequency: " ++ Nat.repr s.blink_freq ++ "Hz" ++ CR),
        .text SHELL_PROMPT])
  else if cmd = "set" then
    match btoi args.data with
    | some freq =>
      if 0 < freq ∧ freq ≤ 100 then
        ({ s with blink_freq := freq, timer_rate := freq * 2 },
         [.text CR, .text SHELL_PROMPT])
      else
        (s, [.text (CR ++ "unsupported frequency" ++ CR), .text SHELL_PROMPT])
    | none =>
      (s, [.text (CR ++ "unsupported frequency" ++ CR), .text SHELL_PROMPT])
  else if cmd = "" then (s, [.text CR, .text SHELL_PROMPT])
  else (s, [.text (CR ++ "unsupported command" ++ CR), .text SHELL_PROMPT])

/-- One result of `shell.poll()` as matched by `serial_data` (main.rs):
`Ok(Some(input))` with a complete command line or a control code,
`Err(ShellError::WouldBlock)`, or anything else (`Ok(None)`, other
errors), which the catch-all arm `_ => {}` ignores. -/
inductive PollResult where
  | command (cmd args : String)
  | control (code : Nat)
  | wouldBlock
  | otherPoll
deriving Repr, DecidableEq

/-- How an invocation of `serial_data` ended: the event list ran out
(model artifact: real hardware always eventually yields would-block),
the `break` on `Err(ShellError::WouldBlock)`, or one of the two `return`
statements in the Ctrl+S / Ctrl+X arms. -/
inductive ExitReason where
  | exhausted
  | wouldBlockExit
  | ctrlReturn
deriving Repr, DecidableEq

/-- The body of `serial_data`'s poll loop for one poll result (main.rs):
the new state, the transport writes, and `some r` when this arm leaves the
loop (`break` on would-block, `return` in the Ctrl+S arm at frequency 100
and the Ctrl+X arm at frequency 1).  `blink_freq` is a `u8`, so the
unguarded `+= 1` / `-= 1` are modelled with wraparound mod 256. -/
def serialEvent (s : SysState) : PollResult → SysState × List Out × Option ExitReason
  | .command cmd args =>
    let (s', out) := mainCommand s cmd args
    (s', out, none)
  | .control code =>
    if code = CTRL_D then ({ s with blink_enabled := true }, [], none)
    else if code = CTRL_C then ({ s with blink_enabled := false }, [], none)
    else if code = CTRL_S then
      if s.blink_freq = 100 then (s, [], some .ctrlReturn)
      else
        let f := (s.blink_freq + 1) % 256
        ({ s with blink_freq := f, timer_rate := f * 2 }, [], none)
    else if code = CTRL_X then
      if s.blink_freq = 1 then (s, [], some .ctrlReturn)
      else
        let f := (s.blink_freq + 255) % 256
        ({ s with blink_freq := f, timer_rate := f * 2 }, [], none)
    else (s, [], none)
  | .wouldBlock => (s, [], some .wouldBlockExit)
  | .otherPoll => (s, [], none)

/-- The `serial_data` handler (main.rs, `binds = USART2`): loop over the
pending poll results until the loop is left.  Returns the final state, the
concatenated transport writes, how the invocation ended, and the poll
results left unconsumed in the transport when it ended. -/
def serial_data (s : SysState) : List PollResult → SysState × List Out × ExitReason × List PollResult
  | [] => (s, [], .exhausted, [])
  | ev :: rest =>
    match serialEvent s ev with
    | (s', out, some r) => (s', out, r, rest)
    | (s', out, none) =>
      let (s'', out', r, rem) := serial_data s' rest
      (s'', out ++ out', r, rem)

/-- `Environment::control` of shell.rs: Ctrl+K clears the screen, Ctrl+D
and Ctrl+C set `blink_enabled`, every other code is ignored; it never
touches `blink_freq` or the timer and never exits early. -/
def envControl (s : SysState) (code : Nat) : SysState × List Out :=
  if code = CTRL_K then (s, [.clearScreen])
  else if code = CTRL_D then ({ s with blink_enabled := true }, [])
  else if code = CTRL_C then ({ s with blink_enabled := false }, [])
  else (s, [])

/-- `Environment::command` of shell.rs (its `match cmd` plus the trailing
`shell.write_str(SHELL_PROMPT)`); identical dispatch to main.rs except
that it prints shell.rs's own `HELP` string. -/
def envCommand (s : SysState) (cmd args : String) : SysState × List Out :=
  if cmd = "help" then (s, [.text shellHELP, .text SHELL_PROMPT])
  else if cmd = "clear" then (s, [.clearScreen, .text SHELL_PROMPT])
  else if cmd = "on" then
    ({ s with blink_enabled := true }, [.text CR, .text SHELL_PROMPT])
  else if cmd = "off" then
    ({ s with blink_enabled := false }, [.text CR, .text SHELL_PROMPT])
  else if cmd = "status" then
    (s, [.text (CR ++ "Animation: " ++ (if s.blink_enabled then "On" else "Off")
          ++ CR ++ "Frequency: " ++ Nat.repr s.blink_freq ++ "Hz" ++ CR),
        .text SHELL_PROMPT])
  else if cmd = "set" then
    match btoi args.data with
    | some freq =>
      if 0 < freq ∧ freq ≤ 100 then
        ({ s with blink_freq := freq, timer_rate := freq * 2 },
         [.text CR, .text SHELL_PROMPT])
      else
        (s, [.text (CR ++ "unsupported frequency" ++ CR), .text SHELL_PROMPT])
    | none =>
      (s, [.text (CR ++ "unsupported frequency" ++ CR), .text SHELL_PROMPT])
  else if cmd = "" then (s, [.text CR, .text SHELL_PROMPT])
  else (s, [.text (CR ++ "unsupported command" ++ CR), .text SHELL_PROMPT])

/-- One interrupt, as scheduled by the RTIC runtime: a TIM16 tick or a
USART2 receive interrupt carrying the poll results it will drain. -/
inductive FwEvent where
  | timerTick
  | serialIrq (evs : List PollResult)
deriving Repr

/-- A run of the firmware: fold the two interrupt handlers over a trace of
interrupts. -/
def run (s : SysState) : List FwEvent → SysState
  | [] => s
  | .timerTick :: tr => run (blink_timer_tick s) tr
  | .serialIrq evs :: tr => run (serial_data s evs).1 tr

/-! ### Helper lemmas -/

theorem blink_timer_tick_eq (s : SysState) :
    blink_timer_tick s =
      { s with led := if s.blink_enabled then !s.led else false,
               timer_irq_pending := false } := by
  cases h : s.blink_enabled <;> simp [blink_timer_tick, h]

theorem mainCommand_freq_cases (s : SysState) (cmd args : String) :
    ((mainCommand s cmd args).1.blink_freq = s.blink_freq ∧
      (mainCommand s cmd args).1.timer_rate = s.timer_rate) ∨
    (1 ≤ (mainCommand s cmd args).1.blink_freq ∧
      (mainCommand s cmd args).1.blink_freq ≤ 100 ∧
      (mainCommand s cmd args).1.timer_rate = (mainCommand s cmd args).1.blink_freq * 2) := by
  unfold mainCommand
  split_ifs <;> try (left; exact ⟨rfl, rfl⟩)
  cases hb : btoi args.data with
  | none => left; exact ⟨rfl, rfl⟩
  | some freq =>
    by_cases hf : 0 < freq ∧ freq ≤ 100
    · right; simp [hf]; omega
    · left; simp [hf]

theorem serialEvent_freq_cases (s : SysState) (ev : PollResult)
    (h1 : 1 ≤ s.blink_freq) (h2 : s.blink_freq ≤ 100) :
    1 ≤ (serialEvent s ev).1.blink_freq ∧ (serialEvent s ev).1.blink_freq ≤ 100 := by
  cases ev with
  | command cmd args =>
    have h := mainCommand_freq_cases s cmd args
    simp only [serialEvent]
    rcases h with ⟨hf, _⟩ | ⟨ha, hb, _⟩
    · exact ⟨hf ▸ h1, hf ▸ h2⟩
    · exact ⟨ha, hb⟩
  | control code =>
    simp only [serialEvent]
    split_ifs <;> simp_all <;> omega
  | wouldBlock => exact ⟨h1, h2⟩
  | otherPoll => exact ⟨h1, h2⟩

theorem serialEvent_rate_inv (s : SysState) (ev : PollResult)
    (h : s.timer_rate = 2 * s.blink_freq) :
    (serialEvent s ev).1.timer_rate = 2 * (serialEvent s ev).1.blink_freq := by
  cases ev with
  | command cmd args =>
    have hc := mainCommand_freq_cases s cmd args
    simp only [serialEvent]
    rcases hc with ⟨hf, hr⟩ | ⟨_, _, hr⟩
    · rw [hr, hf, h]
    · rw [hr]; ring
  | control code =>
    simp only [serialEvent]
    split_ifs <;> simp_all <;> ring
  | wouldBlock => exact h
  | otherPoll => exact h

theorem serial_data_freq_inv (evs : List PollResult) (s : SysState)
    (h1 : 1 ≤ s.blink_freq) (h2 : s.blink_freq ≤ 100) :
    1 ≤ (serial_data s evs).1.blink_freq ∧ (serial_data s evs).1.blink_freq ≤ 100 := by
  induction evs generalizing s with
  | nil => exact ⟨h1, h2⟩
  | cons ev rest ih =>
    have hse := serialEvent_freq_cases s ev h1 h2
    rcases he : serialEvent s ev with ⟨s', out, ex⟩
    rw [he] at hse
    cases ex with
    | some r => simp [serial_data, he]; exact hse
    | none =>
      rcases hr : serial_data s' rest with ⟨s'', out', r, rem⟩
      have := ih s' hse.1 hse.2
      rw [hr] at this
      simp [serial_data, he, hr]
      exact this

theorem serial_data_rate_inv (evs : List PollResult) (s : SysState)
    (h : s.timer_rate = 2 * s.blink_freq) :
    (serial_data s evs).1.timer_rate = 2 * (serial_data s evs).1.blink_freq := by
  induction evs generalizing s with
  | nil => exact h
  | cons ev rest ih =>
    have hse := serialEvent_rate_inv s ev h
    rcases he : serialEvent s ev with ⟨s', out, ex⟩
    rw [he] at hse
    cases ex with
    | some r => simp [serial_data, he]; exact hse
    | none =>
      rcases hr : serial_data s' rest with ⟨s'', out', r, rem⟩
      have := ih s' hse
      rw [hr] at this
      simp [serial_data, he, hr]
      exact this

theorem run_freq_inv (tr : List FwEvent) (s : SysState)
    (h1 : 1 ≤ s.blink_freq) (h2 : s.blink_freq ≤ 100) :
    1 ≤ (run s tr).blink_freq ∧ (run s tr).blink_freq ≤ 100 := by
  induction tr generalizing s with
  | nil => exact ⟨h1, h2⟩
  | cons e tr ih =>
    cases e with
    | timerTick =>
      have ht := blink_timer_tick_eq s
      exact ih _ (by rw [ht]; exact h1) (by rw [ht]; exact h2)
    | serialIrq evs =>
      have hs := serial_data_freq_inv evs s h1 h2
      exact ih _ hs.1 hs.2

theorem run_rate_inv (tr : List FwEvent) (s : SysState)
    (h : s.timer_rate = 2 * s.blink_freq) :
    (run s tr).timer_rate = 2 * (run s tr).blink_freq := by
  induction tr generalizing s with
  | nil => exact h
  | cons e tr ih =>
    cases e with
    | timerTick => exact ih _ (by rw [blink_timer_tick_eq s]; exact h)
    | serialIrq evs => exact ih _ (serial_data_rate_inv evs s h)

/-! ### Claim theorems -/

/-- C2: starting from the boot state, `blink_freq` stays in [1,100] (and so
is never zero) across every interleaving of serial-handler invocations
(commands and control keys) and timer ticks. -/
theorem blink_freq_bounded (tr : List FwEvent) :
    1 ≤ (run initState tr).blink_freq ∧ (run initState tr).blink_freq ≤ 100 :=
  run_freq_inv tr initState (by decide) (by decide)

/-- C3: starting from the boot state, the timer's configured rate equals
2 × `blink_freq` after every serial-handler invocation and every timer
tick, for every trace: every frequency mutation updates the rate in the
same invocation, so the rate never drifts. -/
theorem timer_rate_tracks_freq (tr : List FwEvent) :
    (run initState tr).timer_rate = 2 * (run initState tr).blink_freq :=
  run_rate_inv tr initState (by decide)

/-- C4: a timer tick clears the pending-interrupt flag, toggles the LED
when `blink_enabled` and forces it low otherwise, and changes nothing
else (`blink_enabled`, `blink_freq` and the timer rate are untouched). -/
theorem blink_timer_tick_spec (s : SysState) :
    (blink_timer_tick s).timer_irq_pending = false ∧
    (blink_timer_tick s).led = (if s.blink_enabled then !s.led else false) ∧
    (blink_timer_tick s).blink_enabled = s.blink_enabled ∧
    (blink_timer_tick s).blink_freq = s.blink_freq ∧
    (blink_timer_tick s).timer_rate = s.timer_rate := by
  cases h : s.blink_enabled <;> simp [blink_timer_tick, h]

/-- C7: Ctrl+S received at `blink_freq` = 100 and Ctrl+X received at
`blink_freq` = 1 leave the whole state (in particular the frequency and
the timer rate) unchanged. -/
theorem ctrl_clamp_noop :
    (∀ s : SysState, s.blink_freq = 100 →
      (serialEvent s (.control CTRL_S)).1 = s) ∧
    (∀ s : SysState, s.blink_freq = 1 →
      (serialEvent s (.control CTRL_X)).1 = s) := by
  constructor <;> intro s h <;> simp [serialEvent, CTRL_C, CTRL_D, CTRL_S, CTRL_X, h]

/-- Witness for C7: the clamps at the two concrete boundary states. -/
theorem ctrl_clamp_noop_witness :
    (serialEvent { initState with blink_freq := 100, timer_rate := 200 }
        (.control CTRL_S)).1
      = { initState with blink_freq := 100, timer_rate := 200 } ∧
    (serialEvent { initState with blink_freq := 1, timer_rate := 2 }
        (.control CTRL_X)).1
      = { initState with blink_freq := 1, timer_rate := 2 } :=
  ⟨ctrl_clamp_noop.1 _ rfl, ctrl_clamp_noop.2 _ rfl⟩

/-- C8: after `init`, animation is off, the frequency is 2, and the timer
was started at 4 Hz, which is 2 × the initial frequency. -/
theorem init_spec :
    initState.blink_enabled = false ∧ initState.blink_freq = 2 ∧
    initState.timer_rate = 4 ∧
    initState.timer_rate = 2 * initState.blink_freq := by
  decide

/-- C10: a control code not bound in `serial_data` (not Ctrl+D, Ctrl+C,
Ctrl+S or Ctrl+X) hits the catch-all arm: the state and the transport are
untouched and the drain loop simply continues with the remaining poll
results. -/
theorem unbound_control_ignored (s : SysState) (code : Nat)
    (rest : List PollResult)
    (h1 : code ≠ CTRL_D) (h2 : code ≠ CTRL_C)
    (h3 : code ≠ CTRL_S) (h4 : code ≠ CTRL_X) :
    serial_data s (.control code :: rest) = serial_data s rest := by
  have he : serialEvent s (.control code) = (s, [], none) := by
    simp [serialEvent, h1, h2, h3, h4]
  rcases hr : serial_data s rest with ⟨s'', out', r, rem⟩
  simp [serial_data, he, hr]

/-- Witness for C10: Ctrl+K (code 11) is unbound in main.rs and is
ignored. -/
theorem unbound_control_ignored_witness :
    serial_data initState [.control CTRL_K] = serial_data initState [] :=
  unbound_control_ignored initState CTRL_K []
    (by decide) (by decide) (by decide) (by decide)

/-- C5: a `set` whose argument does not parse as a `u8`, or parses to 0 or
to a value above 100, leaves the state (in particular `blink_freq` and the
timer rate) unchanged and answers "unsupported frequency" followed by the
prompt. -/
theorem set_invalid_rejected (s : SysState) (args : String)
    (h : ∀ n, btoi args.data = some n → n = 0 ∨ 100 < n) :
    mainCommand s "set" args
      = (s, [.text (CR ++ "unsupported frequency" ++ CR), .text SHELL_PROMPT]) := by
  have hset : mainCommand s "set" args
      = match btoi args.data with
        | some freq =>
          if 0 < freq ∧ freq ≤ 100 then
            ({ s with blink_freq := freq, timer_rate := freq * 2 },
             [.text CR, .text SHELL_PROMPT])
          else
            (s, [.text (CR ++ "unsupported frequency" ++ CR), .text SHELL_PROMPT])
        | none =>
          (s, [.text (CR ++ "unsupported frequency" ++ CR), .text SHELL_PROMPT]) := by
    simp [mainCommand]
  rw [hset]
  cases hb : btoi args.data with
  | none => rfl
  | some n =>
    have := h n hb
    have hng : ¬(0 < n ∧ n ≤ 100) := by omega
    simp [hng]

/-- Witness for C5: `set abc` is rejected and mutates nothing. -/
theorem set_invalid_rejected_witness :
    mainCommand initState "set" "abc"
      = (initState,
         [.text (CR ++ "unsupported frequency" ++ CR), .text SHELL_PROMPT]) :=
  set_invalid_rejected initState "abc" (fun n hn => by
    rw [(by decide : btoi "abc".data = none)] at hn
    cases hn)

theorem repr_roundtrip : ∀ n : Nat, n < 101 → btoi (Nat.repr n).data = some n := by
  decide

/-- C6: for every N in [1,100], `set N` stores exactly N, and a following
`status` answers the text CR ++ "Animation: " ++ ("On"|"Off") ++ CR ++
"Frequency: " ++ N ++ "Hz" ++ CR, followed by the prompt. -/
theorem set_then_status_roundtrip (s : SysState) (n : Nat)
    (h1 : 1 ≤ n) (h2 : n ≤ 100) :
    (mainCommand s "set" (Nat.repr n)).1.blink_freq = n ∧
    (mainCommand (mainCommand s "set" (Nat.repr n)).1 "status" "").2
      = [.text (CR ++ "Animation: "
            ++ (if (mainCommand s "set" (Nat.repr n)).1.blink_enabled
                then "On" else "Off")
            ++ CR ++ "Frequency: " ++ Nat.repr n ++ "Hz" ++ CR),
         .text SHELL_PROMPT] := by
  have hb : btoi (Nat.repr n).data = some n := repr_roundtrip n (by omega)
  have hset : mainCommand s "set" (Nat.repr n)
      = ({ s with blink_freq := n, timer_rate := n * 2 },
         [.text CR, .text SHELL_PROMPT]) := by
    simp [mainCommand, hb, h1, h2, Nat.lt_of_lt_of_le h1 (le_refl n)]
  rw [hset]
  simp [mainCommand]

/-- Witness for C6: `set 10` with animation on, then `status`. -/
theorem set_then_status_roundtrip_witness :
    (mainCommand { initState with blink_enabled := true } "set"
        (Nat.repr 10)).1.blink_freq = 10 ∧
    (mainCommand (mainCommand { initState with blink_enabled := true } "set"
        (Nat.repr 10)).1 "status" "").2
      = [.text (CR ++ "Animation: "
            ++ (if (mainCommand { initState with blink_enabled := true } "set"
                  (Nat.repr 10)).1.blink_enabled
                then "On" else "Off")
            ++ CR ++ "Frequency: " ++ Nat.repr 10 ++ "Hz" ++ CR),
         .text SHELL_PROMPT] :=
  set_then_status_roundtrip _ 10 (by decide) (by decide)

theorem serialEvent_exit (s : SysState) (ev : PollResult)
    (s' : SysState) (out : List Out) (r : ExitReason)
    (h : serialEvent s ev = (s', out, some r)) :
    r = .wouldBlockExit ∨
    (r = .ctrlReturn ∧ s' = s ∧ (s.blink_freq = 100 ∨ s.blink_freq = 1)) := by
  cases ev with
  | command cmd args => simp [serialEvent] at h
  | control code =>
    simp only [serialEvent] at h
    split_ifs at h <;> simp_all
  | wouldBlock => simp [serialEvent] at h; simp [h]
  | otherPoll => simp [serialEvent] at h

/-- C1 counterexample: at frequency 100, a Ctrl+S makes `serial_data`
return immediately, leaving the still-available input (a complete `on`
command and the pending would-block) unconsumed: the loop did not
terminate at the would-block condition. -/
theorem drain_loop_early_return_cex :
    serial_data { initState with blink_freq := 100, timer_rate := 200 }
        [.control CTRL_S, .command "on" "", .wouldBlock]
      = ({ initState with blink_freq := 100, timer_rate := 200 }, [],
         .ctrlReturn, [.command "on" "", .wouldBlock]) := by
  decide

/-- C1 amended: an invocation of `serial_data` that leaves input
unconsumed ended either at the would-block condition, or through the early
`return` of the Ctrl+S arm at frequency 100 / the Ctrl+X arm at
frequency 1; apart from those two returns, the loop drains every
available poll result until would-block. -/
theorem drain_loop_exit (s : SysState) (evs : List PollResult)
    (h : (serial_data s evs).2.2.2 ≠ []) :
    (serial_data s evs).2.2.1 = .wouldBlockExit ∨
    ((serial_data s evs).2.2.1 = .ctrlReturn ∧
      ((serial_data s evs).1.blink_freq = 100 ∨
       (serial_data s evs).1.blink_freq = 1)) := by
  induction evs generalizing s with
  | nil => simp [serial_data] at h
  | cons ev rest ih =>
    rcases he : serialEvent s ev with ⟨s', out, ex⟩
    cases ex with
    | some r =>
      have hx := serialEvent_exit s ev s' out r he
      simp only [serial_data, he]
      rcases hx with hw | ⟨hc, hs, hf⟩
      · left; exact hw
      · right; exact ⟨hc, by rw [hs]; exact hf⟩
    | none =>
      rcases hr : serial_data s' rest with ⟨s'', out', r, rem⟩
      have hh : (serial_data s' rest).2.2.2 ≠ [] := by
        rw [hr]
        simpa [serial_data, he, hr] using h
      have := ih s' hh
      rw [hr] at this
      simpa [serial_data, he, hr] using this

/-- Witness for C1 amended: the concrete early-return run has unconsumed
input, ended by the Ctrl+S return, at frequency 100. -/
theorem drain_loop_exit_witness :
    (serial_data { initState with blink_freq := 100, timer_rate := 200 }
        [.control CTRL_S, .wouldBlock]).2.2.1 = .wouldBlockExit ∨
    ((serial_data { initState with blink_freq := 100, timer_rate := 200 }
        [.control CTRL_S, .wouldBlock]).2.2.1 = .ctrlReturn ∧
      ((serial_data { initState with blink_freq := 100, timer_rate := 200 }
          [.control CTRL_S, .wouldBlock]).1.blink_freq = 100 ∨
       (serial_data { initState with blink_freq := 100, timer_rate := 200 }
          [.control CTRL_S, .wouldBlock]).1.blink_freq = 1)) :=
  drain_loop_exit _ _ (by decide)

/-- C9 counterexample: on the input event Ctrl+S at the boot state, the
inline dispatch of main.rs increments the frequency to 3 (and retunes the
timer), while shell.rs's `Environment::control` ignores the key and leaves
the frequency at 2: the two variants are not behaviourally equivalent. -/
theorem variants_not_equiv_cex :
    (serialEvent initState (.control CTRL_S)).1.blink_freq = 3 ∧
    (envControl initState CTRL_S).1.blink_freq = 2 ∧
    (serialEvent initState (.control CTRL_S)).1
      ≠ (envControl initState CTRL_S).1 := by
  decide

/-- C9 amended: the two variants agree (same state mutation, same
transport writes) on every complete command line except `help`, whose
printed text differs; and they agree on Ctrl+D and Ctrl+C, while the
remaining control-key bindings differ (main.rs handles Ctrl+S/Ctrl+X and
ignores Ctrl+K, shell.rs handles Ctrl+K and ignores Ctrl+S/Ctrl+X). -/
theorem variants_agree_except_help_and_keys :
    (∀ (s : SysState) (cmd args : String), cmd ≠ "help" →
      mainCommand s cmd args = envCommand s cmd args) ∧
    (∀ s : SysState,
      (serialEvent s (.control CTRL_D)).1 = (envControl s CTRL_D).1 ∧
      (serialEvent s (.control CTRL_D)).2.1 = (envControl s CTRL_D).2 ∧
      (serialEvent s (.control CTRL_C)).1 = (envControl s CTRL_C).1 ∧
      (serialEvent s (.control CTRL_C)).2.1 = (envControl s CTRL_C).2) := by
  constructor
  · intro s cmd args h
    unfold mainCommand envCommand
    rw [if_neg h, if_neg h]
  · intro s
    refine ⟨?_, ?_, ?_, ?_⟩ <;>
      simp [serialEvent, envControl, CTRL_C, CTRL_D, CTRL_K, CTRL_S, CTRL_X]

/-- Witness for C9 amended: both variants treat `status` (a non-`help`
command) identically at the boot state. -/
theorem variants_agree_witness :
    mainCommand initState "status" "" = envCommand initState "status" "" :=
  variants_agree_except_help_and_keys.1 initState "status" "" (by decide)
